import Mathlib

/-!
Shallow embedding of the two source files of this repository:
  * `src/jina/clients/python/request.py` — document building and request
    generation (`_build_doc`, `_generate`);
  * `src/jina/executors/compound.py` — `CompoundExecutor` (composite router):
    route table construction, `add_route`, `save`, `close`, `is_trained`,
    `__getitem__`, `_FnWrapper`.

Collaborator classes that are not under `src/` (`Document`, `Request`,
`BaseExecutor`, `batch_iterator`) are modelled from the spec where the code
depends on them; each such definition carries a doc comment saying so.
Failures that Python signals by raising an exception are modelled with
`Except`.
-/

/-- The `DataInputType` enum of the source (`jina/enums.py`, referenced by
`request.py`): AUTO, DOCUMENT, CONTENT. -/
inductive DataInputType where
  | auto
  | document
  | content
deriving DecidableEq, Repr

/-- Modelled from the spec: a `Document` (jina/types/document, not in src)
holds a stable id and a content payload; content is modelled as a `Nat`. -/
structure Doc where
  docId : Nat
  content : Nat
deriving DecidableEq, Repr

/-- Modelled from the spec: `Document.update_id` (jina/types/document, not in
src) regenerates the document id and leaves the content untouched; the
regenerated id is modelled as the successor of the old one. -/
def update_id (d : Doc) : Doc :=
  { d with docId := d.docId + 1 }

/-- A raw input item as seen by `_build_doc`: either it is already a
`Document` instance (`isinstance(data, Document)` is true), or it is
structured data on which `Document(data, **kwargs)` succeeds and yields a
given document, or it is raw content on which that constructor raises
`BadDocType`. -/
inductive Item where
  | doc (d : Doc)
  | parsable (d : Doc)
  | raw (v : Nat)
deriving DecidableEq, Repr

/-- The data of an item viewed as a content payload, used when the item is
wrapped by `_build_doc_from_content` (`d.content = data`). -/
def itemData : Item → Nat
  | .doc d => d.content
  | .parsable d => d.content
  | .raw v => v

/-- The inner closure `_build_doc_from_content` of `_build_doc`: constructs a
fresh `Document(**kwargs)` and sets its content to the raw data. Modelled
from the spec for the missing `Document` constructor: the fresh id is 0. -/
def _build_doc_from_content (data : Item) : Doc :=
  ⟨0, itemData data⟩

/-- `_build_doc` from `src/jina/clients/python/request.py`: resolves one raw
item into a document plus a resolved `DataInputType`; raising `BadDocType`
is modelled as `Except.error`. -/
def _build_doc (data : Item) (data_type : DataInputType) (override_doc_id : Bool) :
    Except Unit (Doc × DataInputType) :=
  match data_type, data with
  | .content, d => .ok (_build_doc_from_content d, .content)
  | .auto, .doc d => .ok (d, .document)
  | .document, .doc d => .ok (d, .document)
  | .auto, .parsable d => .ok (if override_doc_id then update_id d else d, .document)
  | .document, .parsable d => .ok (if override_doc_id then update_id d else d, .document)
  | .auto, .raw v => .ok (_build_doc_from_content (.raw v), .content)
  | .document, .raw _ => .error ()

/-- One element of the input stream of `_generate`: either a single item, or
a 2-tuple of primary item and ground-truth item. -/
inductive StreamItem where
  | single (i : Item)
  | pair (a b : Item)
deriving DecidableEq, Repr

/-- The body of the inner `for content in batch` loop of `_generate`: builds
the document (and the ground-truth document for a pair) and returns the new
tracked `data_type`. For a pair, the primary's resolved type is cached and
handed to the ground-truth build, whose own resolved type is discarded
(`gt, _ = _build_doc(...)`). -/
def stepContent (ov : Bool) (dt : DataInputType) : StreamItem →
    Except Unit ((Doc × Option Doc) × DataInputType)
  | .single i =>
    match _build_doc i dt ov with
    | .error e => .error e
    | .ok (d, t) => .ok ((d, none), t)
  | .pair a b =>
    match _build_doc a dt ov with
    | .error e => .error e
    | .ok (d, t) =>
      match _build_doc b t ov with
      | .error e => .error e
      | .ok (gt, _) => .ok ((d, some gt), t)

/-- The `queryset` argument of `_generate`: absent, a sequence, or a single
query-language object (modelled as `Nat`). -/
inductive QuerysetArg where
  | noneQ
  | seqQ (l : List Nat)
  | singleQ (q : Nat)
deriving DecidableEq, Repr

/-- The queryset handling of `_generate`: a sequence is extended onto the
request's queryset, a single object is appended, `None` adds nothing. -/
def appendQueryset : QuerysetArg → List Nat → List Nat
  | .noneQ, qs => qs
  | .seqQ l, qs => qs ++ l
  | .singleQ q, qs => qs ++ [q]

/-- Modelled from the spec: a `Request` (jina/types, not in src) carries a
mode tag, the documents, the positionally aligned ground-truth documents and
the query directives. -/
structure Req where
  request_type : String
  docs : List Doc
  groundtruths : List Doc
  queryset : List Nat
deriving DecidableEq, Repr

/-- Chunking helper for `batch_iterator`, structurally recursive on a fuel
bound (the list length): splits a list into consecutive chunks of size `b`
(the last chunk may be shorter). -/
def chunkFuel (b : Nat) : Nat → List StreamItem → List (List StreamItem)
  | _, [] => []
  | 0, _ :: _ => []
  | fuel + 1, x :: xs => (x :: xs.take (b - 1)) :: chunkFuel b fuel (xs.drop (b - 1))

/-- Splits a list into consecutive chunks of size `b` (the last chunk may be
shorter). -/
def chunkList (b : Nat) (l : List StreamItem) : List (List StreamItem) :=
  chunkFuel b l.length l

/-- Modelled from the spec: `batch_iterator` (jina/helper, not in src) groups
the stream into fixed-size chunks of `batch_size`, order preserving; a
`batch_size` of 0 means one single unbounded batch. -/
def batch_iterator (data : List StreamItem) (batch_size : Nat) : List (List StreamItem) :=
  if batch_size = 0 then [data] else chunkList batch_size data

/-- Processing of one batch inside `_generate`: build every item of the
batch in order, threading the cached `data_type` through, collecting the
documents and ground-truths in order. The last component is an
instrumentation trace: for every primary `_build_doc` call, the pair
(type given to the call, type resolved by the call). -/
def processBatch (ov : Bool) : List StreamItem → DataInputType →
    Except Unit (List Doc × List Doc × DataInputType × List (DataInputType × DataInputType))
  | [], dt => .ok ([], [], dt, [])
  | s :: ss, dt =>
    match stepContent ov dt s with
    | .error e => .error e
    | .ok ((d, gt?), t) =>
      match processBatch ov ss t with
      | .error e => .error e
      | .ok (ds, gts, dtf, tr) =>
        .ok (d :: ds, (match gt? with | some g => g :: gts | none => gts), dtf,
             (dt, t) :: tr)

/-- The `for batch in batch_iterator(...)` loop of `_generate`: one `Req` per
batch, threading the cached `data_type` across batch boundaries; traces of
the batches are concatenated. -/
def generateBatches (ov : Bool) (mode : String) (qs : QuerysetArg) :
    List (List StreamItem) → DataInputType →
    Except Unit (List Req × DataInputType × List (DataInputType × DataInputType))
  | [], dt => .ok ([], dt, [])
  | b :: bs, dt =>
    match processBatch ov b dt with
    | .error e => .error e
    | .ok (ds, gts, dt', tr) =>
      match generateBatches ov mode qs bs dt' with
      | .error e => .error e
      | .ok (reqs, dtf, trs) =>
        .ok (⟨mode, ds, gts, appendQueryset qs []⟩ :: reqs, dtf, tr ++ trs)

/-- `_generate` from `src/jina/clients/python/request.py`, restricted to the
parts the claims are about: batches the stream, builds every document with
the cached `data_type`, and returns the requests, the final tracked type and
the trace of (given type, resolved type) pairs of the primary builds. -/
def _generate (ov : Bool) (mode : String) (qs : QuerysetArg) (batch_size : Nat)
    (data : List StreamItem) (dt0 : DataInputType) :
    Except Unit (List Req × DataInputType × List (DataInputType × DataInputType)) :=
  generateBatches ov mode qs (batch_iterator data batch_size) dt0

/-- The type-caching discipline of `_generate`: in a trace of
(given type, resolved type) pairs starting from tracked type `dt0` and ending
with tracked type `dtf`, every call is given exactly the type resolved by
the previous call, and no call ever resolves to AUTO. -/
def TraceOK (dt0 dtf : DataInputType) : List (DataInputType × DataInputType) → Prop
  | [] => dt0 = dtf
  | p :: rest => p.1 = dt0 ∧ p.2 ≠ DataInputType.auto ∧ TraceOK p.2 dtf rest

/-- A component of a `CompoundExecutor`, per the component contract: a name,
the named operations it exposes (each a callable taking an argument list and
producing a result of type `ρ`), the `is_trained` and `is_updated` flags,
and the outcomes of calling its own `save()` and `close()` methods (a raised
exception is modelled as `Except.error`). -/
structure Component (ρ : Type) where
  name : String
  ops : List (String × (List ρ → ρ))
  is_trained : Bool
  is_updated : Bool
  saveR : Except Unit Unit
  closeR : Except Unit Unit

/-- `CompoundExecutor.is_trained`: the truth value of
`self.components and all(c.is_trained for c in self.components)`. -/
def compound_is_trained {ρ : Type} (comps : List (Component ρ)) : Bool :=
  !comps.isEmpty && comps.all (fun c => c.is_trained)

/-- The `for c in self.components: c.save()` loop of `CompoundExecutor.save`:
a component's raised exception propagates and aborts the loop. -/
def save_components {ρ : Type} : List (Component ρ) → Except Unit Unit
  | [] => .ok ()
  | c :: cs =>
    match c.saveR with
    | .ok _ => save_components cs
    | .error e => .error e

/-- `CompoundExecutor.save`: saves every component in order, then the
compound executor's own descriptor (`super().save()`, whose outcome is the
parameter `selfSave`), then returns `True`. The second component of the
result records whether the compound's own descriptor was written. -/
def compound_save {ρ : Type} (comps : List (Component ρ)) (selfSave : Except Unit Unit) :
    Except Unit Bool × Bool :=
  match save_components comps with
  | .error e => (.error e, false)
  | .ok _ =>
    match selfSave with
    | .error e => (.error e, false)
    | .ok _ => (.ok true, true)

/-- The `for c in self.components: c.close()` loop of
`CompoundExecutor.close`: returns how many components' `close()` was invoked
and the outcome; a raised exception propagates and aborts the loop. -/
def close_components {ρ : Type} : List (Component ρ) → Nat × Except Unit Unit
  | [] => (0, .ok ())
  | c :: cs =>
    match c.closeR with
    | .ok _ =>
      match close_components cs with
      | (n, r) => (n + 1, r)
    | .error e => (1, .error e)

/-- `CompoundExecutor.close`: closes every component in order, then performs
the compound's own teardown (`super().close()`, whose outcome is the
parameter `selfClose`). Returns the number of components whose `close()`
was invoked, whether the compound's own teardown ran, and the outcome. -/
def compound_close {ρ : Type} (comps : List (Component ρ)) (selfClose : Except Unit Unit) :
    Nat × Bool × Except Unit Unit :=
  match close_components comps with
  | (n, .ok _) => (n, true, selfClose)
  | (n, .error e) => (n, false, .error e)

/-- An entry of the route table that `_set_routes`/`add_route` install on the
compound executor (`setattr(self, name, fn)`): either a direct alias to one
component's bound operation, or a `_FnWrapper` aggregate over the bound
operations of several components. -/
inductive RouteEntry (ρ : Type) where
  | direct (f : List ρ → ρ)
  | aggregate (fs : List (List ρ → ρ))

/-- The providers of operation `m`: the `(c.name, getattr(c, m))` pairs of
the components exposing `m`, in component-list order — the contents of
`r[m]` after the collection loop of `_set_routes`. -/
def collectProviders {ρ : Type} (comps : List (Component ρ)) (m : String) :
    List (String × (List ρ → ρ)) :=
  comps.filterMap (fun c => (c.ops.lookup m).map (fun f => (c.name, f)))

/-- `CompoundExecutor._set_routes`: for every recognized operation name
(`BaseExecutor.exec_methods`, not in src, modelled as the parameter `ems`),
a single provider yields a direct alias under the original name; several
providers yield, when `resolve_all` is set, a `_FnWrapper` aggregate under
the name `<op>_all`, and otherwise no attribute at all (the name is only
reported as unresolvable). Attributes form a mapping, so the entry order
carries no meaning. -/
def _set_routes {ρ : Type} (ems : List String) (comps : List (Component ρ))
    (resolve_all : Bool) : List (String × RouteEntry ρ) :=
  ems.foldr (fun m acc =>
    match collectProviders comps m with
    | [] => acc
    | [(_, f)] => (m, RouteEntry.direct f) :: acc
    | v => if resolve_all then (m ++ "_all", RouteEntry.aggregate (v.map (fun p => p.2))) :: acc
           else acc) []

/-- `CompoundExecutor._FnWrapper.__call__`: whatever `*args, **kwargs` the
caller passes, every wrapped function is invoked with zero arguments
(`f()`, modelled as `f []`) and the results are collected in order. -/
def fnWrapperCall {ρ : Type} (fns : List (List ρ → ρ)) (args : List ρ) : List ρ :=
  fns.map (fun f => f [])

/-- The argument of `CompoundExecutor.__getitem__`: an int index, a string
name, or a value of any other type. -/
inductive GetKey where
  | idx (i : Int)
  | name (s : String)
  | other

/-- Whether an `Except` value is an error. -/
def isErrExcept {ε α : Type} : Except ε α → Bool
  | .error _ => true
  | .ok _ => false

/-- `CompoundExecutor.__getitem__`: an int indexes the component list
(Python list indexing, negative indices from the end, `IndexError`
otherwise); a string scans for the first component with that exact name and
— when none matches — falls off the end of the function, returning Python's
implicit `None` (modelled as `.ok none`); any other type raises
`TypeError`. -/
def compound_getitem {ρ : Type} (comps : List (Component ρ)) : GetKey →
    Except String (Option (Component ρ))
  | .idx i =>
    if h : 0 ≤ i ∧ i.toNat < comps.length then .ok (some (comps.get ⟨i.toNat, h.2⟩))
    else if h' : i < 0 ∧ (i + comps.length).toNat < comps.length ∧ 0 ≤ i + comps.length then
      .ok (some (comps.get ⟨(i + comps.length).toNat, h'.2.1⟩))
    else .error "IndexError"
  | .name s => .ok (comps.find? (fun c => c.name == s))
  | .other => .error "TypeError"

/-- The mutable state of a `CompoundExecutor` that `add_route` touches: the
component list, the installed route attributes, the stored `_routes` record
(an assoc list, newest binding first) and the executor's own
`_is_updated` flag. -/
structure RouterSt (ρ : Type) where
  comps : List (Component ρ)
  table : List (String × RouteEntry ρ)
  routes : List (String × String × String)
  is_updated : Bool

/-- `CompoundExecutor.add_route`: scans the components for the first one
whose name equals `comp_name` and which has a callable `comp_fn_name`;
installs the alias (and, when `is_stored`, records it in `_routes` and sets
`_is_updated`). When the scan finds nothing, the `for … else` clause raises
`AttributeError` (modelled as `some (comp_name, comp_fn_name)` in the second
component) with the state untouched. -/
def add_route {ρ : Type} (st : RouterSt ρ) (fn_name comp_name comp_fn_name : String)
    (is_stored : Bool) : RouterSt ρ × Option (String × String) :=
  match st.comps.find? (fun c => c.name == comp_name && (c.ops.lookup comp_fn_name).isSome) with
  | none => (st, some (comp_name, comp_fn_name))
  | some c =>
    match c.ops.lookup comp_fn_name with
    | none => (st, some (comp_name, comp_fn_name))
    | some f =>
      ({ st with
          table := (fn_name, RouteEntry.direct f) :: st.table,
          routes := if is_stored then (fn_name, comp_name, comp_fn_name) :: st.routes
                    else st.routes,
          is_updated := if is_stored then true else st.is_updated }, none)

example : _build_doc (Item.raw 3) .auto true = .ok (⟨0, 3⟩, .content) := rfl
example : _build_doc (Item.doc ⟨5, 7⟩) .auto true = .ok (⟨5, 7⟩, .document) := rfl
example : _build_doc (Item.parsable ⟨5, 7⟩) .auto true = .ok (⟨6, 7⟩, .document) := rfl
example : _build_doc (Item.raw 3) .document true = .error () := rfl
example :
    _generate true "index" .noneQ 1 [.single (.raw 3), .single (.parsable ⟨1, 2⟩)] .auto
      = .ok ([⟨"index", [⟨0, 3⟩], [], []⟩, ⟨"index", [⟨0, 2⟩], [], []⟩], .content,
             [(.auto, .content), (.content, .content)]) := rfl

theorem build_type_ne_auto {i : Item} {dt : DataInputType} {ov : Bool} {d : Doc}
    {t : DataInputType} (h : _build_doc i dt ov = .ok (d, t)) :
    t ≠ DataInputType.auto := by
  cases dt <;> cases i <;> simp [_build_doc] at h <;> obtain ⟨-, rfl⟩ := h <;> decide

theorem build_type_fixed {i : Item} {dt : DataInputType} {ov : Bool} {d : Doc}
    {t : DataInputType} (hdt : dt ≠ DataInputType.auto)
    (h : _build_doc i dt ov = .ok (d, t)) : t = dt := by
  cases dt <;> cases i <;> simp_all [_build_doc]

theorem stepContent_type_ne_auto {ov : Bool} {dt : DataInputType} {s : StreamItem}
    {x : Doc × Option Doc} {t : DataInputType}
    (h : stepContent ov dt s = .ok (x, t)) : t ≠ DataInputType.auto := by
  cases s with
  | single i =>
    cases hb : _build_doc i dt ov with
    | error e => simp [stepContent, hb] at h
    | ok p =>
      obtain ⟨d0, t0⟩ := p
      simp [stepContent, hb] at h
      obtain ⟨-, rfl⟩ := h
      exact build_type_ne_auto hb
  | pair a b =>
    cases hb : _build_doc a dt ov with
    | error e => simp [stepContent, hb] at h
    | ok p =>
      obtain ⟨d0, t0⟩ := p
      cases hb' : _build_doc b t0 ov with
      | error e => simp [stepContent, hb, hb'] at h
      | ok q =>
        obtain ⟨g0, t1⟩ := q
        simp [stepContent, hb, hb'] at h
        obtain ⟨-, rfl⟩ := h
        exact build_type_ne_auto hb

theorem traceOK_append {l1 l2 : List (DataInputType × DataInputType)} :
    ∀ {dt0 dt1 dt2 : DataInputType},
      TraceOK dt0 dt1 l1 → TraceOK dt1 dt2 l2 → TraceOK dt0 dt2 (l1 ++ l2) := by
  induction l1 with
  | nil =>
    intro dt0 dt1 dt2 h1 h2
    simp only [TraceOK] at h1
    subst h1
    simpa using h2
  | cons p rest ih =>
    intro dt0 dt1 dt2 h1 h2
    obtain ⟨hp, hna, hrest⟩ := h1
    exact ⟨hp, hna, ih hrest h2⟩

theorem traceOK_resolved_ne_auto {l : List (DataInputType × DataInputType)} :
    ∀ {dt0 dtf : DataInputType}, TraceOK dt0 dtf l →
      ∀ p ∈ l, p.2 ≠ DataInputType.auto := by
  induction l with
  | nil => intro dt0 dtf _ p hp; cases hp
  | cons q rest ih =>
    intro dt0 dtf h p hp
    obtain ⟨-, hna, hrest⟩ := h
    cases hp with
    | head => exact hna
    | tail _ hmem => exact ih hrest p hmem

theorem processBatch_trace {ov : Bool} :
    ∀ (ss : List StreamItem) {dt : DataInputType} {ds gts : List Doc}
      {dtf : DataInputType} {tr : List (DataInputType × DataInputType)},
      processBatch ov ss dt = .ok (ds, gts, dtf, tr) → TraceOK dt dtf tr := by
  intro ss
  induction ss with
  | nil =>
    intro dt ds gts dtf tr h
    simp [processBatch] at h
    obtain ⟨-, -, h3, h4⟩ := h
    subst h3
    subst h4
    rfl
  | cons s ss ih =>
    intro dt ds gts dtf tr h
    cases hs : stepContent ov dt s with
    | error e => simp [processBatch, hs] at h
    | ok p =>
      obtain ⟨⟨d, gtOpt⟩, t⟩ := p
      cases hp : processBatch ov ss t with
      | error e => simp [processBatch, hs, hp] at h
      | ok q =>
        obtain ⟨ds', gts', dtf', tr'⟩ := q
        simp [processBatch, hs, hp] at h
        obtain ⟨-, -, h3, h4⟩ := h
        subst h3
        subst h4
        exact ⟨rfl, stepContent_type_ne_auto hs, ih hp⟩

theorem generateBatches_trace {ov : Bool} {mode : String} {qs : QuerysetArg} :
    ∀ (bs : List (List StreamItem)) {dt : DataInputType} {reqs : List Req}
      {dtf : DataInputType} {tr : List (DataInputType × DataInputType)},
      generateBatches ov mode qs bs dt = .ok (reqs, dtf, tr) → TraceOK dt dtf tr := by
  intro bs
  induction bs with
  | nil =>
    intro dt reqs dtf tr h
    simp [generateBatches] at h
    obtain ⟨-, h2, h3⟩ := h
    subst h2
    subst h3
    rfl
  | cons b bs ih =>
    intro dt reqs dtf tr h
    cases hb : processBatch ov b dt with
    | error e => simp [generateBatches, hb] at h
    | ok p =>
      obtain ⟨ds, gts, dt', tr1⟩ := p
      cases hg : generateBatches ov mode qs bs dt' with
      | error e => simp [generateBatches, hb, hg] at h
      | ok q =>
        obtain ⟨reqs', dtf', tr2⟩ := q
        simp [generateBatches, hb, hg] at h
        obtain ⟨-, h2, h3⟩ := h
        subst h2
        subst h3
        exact traceOK_append (processBatch_trace b hb) (ih hg)

/-- C3: in `_generate`, after each primary `_build_doc` call the tracked
resolved type overwrites the requested type and governs every subsequent
item of the entire remaining stream, across batch boundaries: the trace of
(given type, resolved type) pairs starts at the requested type, every later
call is given exactly the type resolved by the previous call, and no call
ever resolves back to AUTO — so after the first AUTO resolution no item is
re-probed as AUTO. -/
theorem generate_type_caching_c3 (ov : Bool) (mode : String) (qs : QuerysetArg)
    (batch_size : Nat) (data : List StreamItem) (dt0 : DataInputType)
    (reqs : List Req) (dtf : DataInputType) (l : List (DataInputType × DataInputType))
    (h : _generate ov mode qs batch_size data dt0 = .ok (reqs, dtf, l)) :
    TraceOK dt0 dtf l ∧ ∀ p ∈ l, p.2 ≠ DataInputType.auto := by
  have htr : TraceOK dt0 dtf l := generateBatches_trace (batch_iterator data batch_size) h
  exact ⟨htr, traceOK_resolved_ne_auto htr⟩

/-- Witness for C3 at a concrete two-item stream with batch size 1: the
first item resolves AUTO to CONTENT and the second is resolved under
CONTENT, across the batch boundary. -/
theorem generate_type_caching_c3_witness :
    TraceOK DataInputType.auto DataInputType.content
      [(DataInputType.auto, DataInputType.content),
       (DataInputType.content, DataInputType.content)] :=
  (generate_type_caching_c3 true "index" .noneQ 1
      [.single (.raw 3), .single (.parsable ⟨1, 2⟩)] .auto
      [⟨"index", [⟨0, 3⟩], [], []⟩, ⟨"index", [⟨0, 2⟩], [], []⟩] .content
      [(.auto, .content), (.content, .content)] rfl).1

/-- C6 counterexample: the claim says the id is regenerated whenever
`override_doc_id` is set, for every item that strictly parses as a
pre-structured document. But an item that already is a `Document` instance
is returned completely unchanged by `_build_doc` even with
`override_doc_id = true` — its id is not regenerated (`update_id` would
have changed it). -/
theorem build_doc_no_id_regen_counterexample :
    _build_doc (Item.doc ⟨5, 7⟩) DataInputType.auto true = .ok (⟨5, 7⟩, .document)
      ∧ update_id ⟨5, 7⟩ ≠ (⟨5, 7⟩ : Doc) :=
  ⟨rfl, by decide⟩

/-- C6 amended: for an item that strictly parses as a pre-structured
document under requested type AUTO or DOCUMENT, `_build_doc` returns it with
resolved type DOCUMENT and content unchanged; the id is regenerated when
`override_doc_id` is set and the item is structured data converted through
the `Document` constructor, but an item that already is a `Document`
instance is returned as-is, its id never regenerated. -/
theorem build_doc_document_path_c6 (d : Doc) (ov : Bool) (dt : DataInputType)
    (h : dt = DataInputType.auto ∨ dt = DataInputType.document) :
    _build_doc (Item.doc d) dt ov = .ok (d, .document)
      ∧ _build_doc (Item.parsable d) dt ov
          = .ok (if ov then update_id d else d, .document)
      ∧ (update_id d).content = d.content := by
  cases h with
  | inl h => subst h; exact ⟨rfl, rfl, rfl⟩
  | inr h => subst h; exact ⟨rfl, rfl, rfl⟩

/-- Witness for C6 (amended) at requested type AUTO with
`override_doc_id = true`. -/
theorem build_doc_document_path_c6_witness :
    _build_doc (Item.doc ⟨1, 2⟩) DataInputType.auto true = .ok (⟨1, 2⟩, .document)
      ∧ _build_doc (Item.parsable ⟨1, 2⟩) DataInputType.auto true
          = .ok (update_id ⟨1, 2⟩, .document)
      ∧ (update_id (⟨1, 2⟩ : Doc)).content = (⟨1, 2⟩ : Doc).content :=
  build_doc_document_path_c6 ⟨1, 2⟩ true DataInputType.auto (Or.inl rfl)

/-- C8: when `_generate` processes a paired item `(a, b)` successfully and
the primary resolves to type `t`, the ground-truth build call is given
exactly `t` — never AUTO — and the document it returns is produced with
resolved type equal to `t`, never independently re-inferred. -/
theorem pair_groundtruth_type_c8 (ov : Bool) (dt : DataInputType) (a b : Item)
    (d gt : Doc) (t : DataInputType)
    (h : stepContent ov dt (StreamItem.pair a b) = .ok ((d, some gt), t)) :
    _build_doc b t ov = .ok (gt, t) ∧ t ≠ DataInputType.auto := by
  cases hb : _build_doc a dt ov with
  | error e => simp [stepContent, hb] at h
  | ok p =>
    obtain ⟨d0, t0⟩ := p
    cases hb' : _build_doc b t0 ov with
    | error e => simp [stepContent, hb, hb'] at h
    | ok q =>
      obtain ⟨g0, t1⟩ := q
      simp [stepContent, hb, hb'] at h
      obtain ⟨⟨hd, hg⟩, ht⟩ := h
      have hne : t0 ≠ DataInputType.auto := build_type_ne_auto hb
      have ht1 : t1 = t0 := build_type_fixed hne hb'
      rw [ht1] at hb'
      rw [← ht, ← hg]
      exact ⟨hb', hne⟩

/-- Witness for C8 at a concrete pair whose primary resolves AUTO to
CONTENT. -/
theorem pair_groundtruth_type_c8_witness :
    _build_doc (Item.raw 4) DataInputType.content true = .ok (⟨0, 4⟩, .content)
      ∧ DataInputType.content ≠ DataInputType.auto :=
  pair_groundtruth_type_c8 true .auto (Item.raw 3) (Item.raw 4) ⟨0, 3⟩ ⟨0, 4⟩ .content rfl

theorem save_components_ok_iff {ρ : Type} (comps : List (Component ρ)) :
    save_components comps = .ok () ↔ ∀ c ∈ comps, c.saveR = .ok () := by
  induction comps with
  | nil => simp [save_components]
  | cons c cs ih =>
    cases hc : c.saveR with
    | ok u => cases u; simp [save_components, hc, ih]
    | error e => cases e; simp [save_components, hc]

/-- C1: `CompoundExecutor.save` persists every component and then the
compound's own descriptor; it returns success exactly when every component
save and the compound's own save succeed, and the compound's own descriptor
is written exactly under the same condition — so when any component save
fails, the whole operation fails and the descriptor is not written. -/
theorem compound_save_success_c1 {ρ : Type} (comps : List (Component ρ))
    (selfSave : Except Unit Unit) :
    ((compound_save comps selfSave).1 = .ok true
        ↔ ((∀ c ∈ comps, c.saveR = .ok ()) ∧ selfSave = .ok ()))
    ∧ ((compound_save comps selfSave).2 = true
        ↔ ((∀ c ∈ comps, c.saveR = .ok ()) ∧ selfSave = .ok ())) := by
  cases hs : save_components comps with
  | ok u =>
    cases u
    have hall := (save_components_ok_iff comps).mp hs
    cases selfSave with
    | ok v => cases v; constructor <;> simp [compound_save, hs] <;> exact hall
    | error e => cases e; constructor <;> simp [compound_save, hs]
  | error e =>
    cases e
    have hnall : ¬ (∀ c ∈ comps, c.saveR = .ok ()) := by
      intro hl
      have hok := (save_components_ok_iff comps).mpr hl
      rw [hs] at hok
      simp at hok
    cases selfSave <;> simp [compound_save, hs, hnall]

theorem close_components_all_ok {ρ : Type} (comps : List (Component ρ))
    (h : ∀ c ∈ comps, c.closeR = .ok ()) :
    close_components comps = (comps.length, .ok ()) := by
  induction comps with
  | nil => rfl
  | cons c cs ih =>
    have hc : c.closeR = .ok () := h c (List.mem_cons_self c cs)
    have ih' := ih (fun d hd => h d (List.mem_cons_of_mem c hd))
    simp [close_components, hc, ih']

theorem close_components_stops {ρ : Type} (pre post : List (Component ρ))
    (c : Component ρ) (hpre : ∀ d ∈ pre, d.closeR = .ok ())
    (hc : c.closeR = .error ()) :
    close_components (pre ++ c :: post) = (pre.length + 1, .error ()) := by
  induction pre with
  | nil => simp [close_components, hc]
  | cons p ps ih =>
    have hp : p.closeR = .ok () := hpre p (List.mem_cons_self p ps)
    have ih' := ih (fun d hd => hpre d (List.mem_cons_of_mem p hd))
    simp [close_components, hp, ih']

/-- Example components over `ρ = Unit`: one whose own save/close succeed,
and one whose `close()` raises. -/
def compUnitA : Component Unit :=
  ⟨"a", [], true, false, .ok (), .ok ()⟩

/-- A component whose `close()` raises an exception. -/
def compUnitBadClose : Component Unit :=
  ⟨"bad", [], true, false, .ok (), .error ()⟩

/-- C2 counterexample: the claim says `close()` continues to the next
component even when one component's close fails. With the failing component
first, the code invokes only 1 of the 2 components' `close()` (the
exception aborts the loop) and the compound's own teardown does not run. -/
theorem compound_close_c2_counterexample :
    (compound_close [compUnitBadClose, compUnitA] (Except.ok ())).1 = 1
      ∧ (compound_close [compUnitBadClose, compUnitA] (Except.ok ())).2.1 = false :=
  ⟨rfl, rfl⟩

/-- C2 amended: `close()` closes the components in list order but a failing
component close propagates immediately: the components after it are not
closed and the compound's own teardown is skipped; only when every
component's close succeeds are all components closed and the compound's own
teardown performed. -/
theorem compound_close_c2 {ρ : Type} (pre post : List (Component ρ))
    (c : Component ρ) (selfClose : Except Unit Unit) :
    ((∀ d ∈ pre ++ c :: post, d.closeR = .ok ()) →
        compound_close (pre ++ c :: post) selfClose
          = ((pre ++ c :: post).length, true, selfClose))
    ∧ (c.closeR = .error () → (∀ d ∈ pre, d.closeR = .ok ()) →
        compound_close (pre ++ c :: post) selfClose
          = (pre.length + 1, false, .error ())) := by
  constructor
  · intro h
    simp [compound_close, close_components_all_ok _ h]
  · intro hc hpre
    simp [compound_close, close_components_stops pre post c hpre hc]

/-- Witness for C2 (amended): with a failing component in the middle, the
loop stops after it — 2 of the 3 closes are invoked, no teardown. -/
theorem compound_close_c2_witness :
    compound_close [compUnitA, compUnitBadClose, compUnitA] (Except.ok ())
      = (2, false, Except.error ()) :=
  (compound_close_c2 [compUnitA] [compUnitA] compUnitBadClose (Except.ok ())).2 rfl
    (by intro d hd; rcases List.mem_singleton.mp hd with rfl; rfl)

/-- C4: over components A exposing `op1`,`op2` and B exposing `op2`,`op3`,
with `resolve_all` set, `_set_routes` installs a direct alias `op1` to A's
`op1`, a direct alias `op3` to B's `op3`, and an aggregate `op2_all` over
[A's `op2`, B's `op2`]; invoking that aggregate returns the 2-element
ordered result list [A.op2(), B.op2()]. -/
theorem set_routes_auto_aggregate_c4 {ρ : Type} (nA nB : String)
    (fA1 fA2 fB2 fB3 : List ρ → ρ) (tA uA tB uB : Bool)
    (sA cA sB cB : Except Unit Unit) (args : List ρ) :
    _set_routes ["op1", "op2", "op3"]
        [⟨nA, [("op1", fA1), ("op2", fA2)], tA, uA, sA, cA⟩,
         ⟨nB, [("op2", fB2), ("op3", fB3)], tB, uB, sB, cB⟩] true
      = [("op1", RouteEntry.direct fA1),
         ("op2_all", RouteEntry.aggregate [fA2, fB2]),
         ("op3", RouteEntry.direct fB3)]
    ∧ fnWrapperCall [fA2, fB2] args = [fA2 [], fB2 []] :=
  ⟨rfl, rfl⟩

theorem find?_first_match {α : Type} (p : α → Bool) (pre post : List α) (c : α)
    (hpre : ∀ d ∈ pre, p d = false) (hc : p c = true) :
    (pre ++ c :: post).find? p = some c := by
  induction pre with
  | nil => simp [List.find?_cons, hc]
  | cons d ds ih =>
    have hd := hpre d (List.mem_cons_self d ds)
    have ih' := ih (fun x hx => hpre x (List.mem_cons_of_mem d hx))
    simp [List.find?_cons, hd, ih']

/-- C5 counterexample: the claim says `__getitem__` with a string matching
no component's name fails with a not-found error; the code instead falls
off the end of the method and returns Python's implicit `None` — a normal
(non-error) return. -/
theorem getitem_by_name_c5_counterexample :
    compound_getitem [compUnitA] (GetKey.name "b") = .ok none
      ∧ isErrExcept (compound_getitem [compUnitA] (GetKey.name "b")) = false :=
  ⟨rfl, rfl⟩

/-- C5 amended: `__getitem__` with a string returns the first component
whose name matches exactly; when no component's name matches it returns
Python's implicit `None` (no not-found error is raised). -/
theorem getitem_by_name_c5 {ρ : Type} (comps : List (Component ρ)) (s : String) :
    ((∀ c ∈ comps, c.name ≠ s) → compound_getitem comps (GetKey.name s) = .ok none)
    ∧ (∀ pre c post, comps = pre ++ c :: post → c.name = s →
        (∀ d ∈ pre, d.name ≠ s) →
        compound_getitem comps (GetKey.name s) = .ok (some c)) := by
  constructor
  · intro h
    simp only [compound_getitem, Except.ok.injEq]
    apply List.find?_eq_none.mpr
    intro c hc
    simp [h c hc]
  · intro pre c post hsplit hc hpre
    subst hsplit
    simp only [compound_getitem, Except.ok.injEq]
    apply find?_first_match
    · intro d hd
      simp [hpre d hd]
    · simp [hc]

/-- Witness for C5 (amended), no-match side: a lookup by a name no
component carries returns `.ok none`. -/
theorem getitem_by_name_c5_witness :
    compound_getitem [compUnitA] (GetKey.name "zzz") = .ok none :=
  (getitem_by_name_c5 [compUnitA] "zzz").1
    (by intro c hc; rcases List.mem_singleton.mp hc with rfl; decide)

/-- C7: `add_route` given a component name that matches no component, or an
operation name that is not present and callable on the name-matching
components, raises `AttributeError` and leaves the whole router state — in
particular the route table and the stored `_routes` record — unchanged. -/
theorem add_route_bad_names_c7 {ρ : Type} (st : RouterSt ρ)
    (fn cn cfn : String) (stored : Bool)
    (h : ∀ c ∈ st.comps, c.name = cn → c.ops.lookup cfn = none) :
    add_route st fn cn cfn stored = (st, some (cn, cfn)) := by
  have hfind : st.comps.find?
      (fun c => c.name == cn && (c.ops.lookup cfn).isSome) = none := by
    apply List.find?_eq_none.mpr
    intro c hc
    simp only [Bool.and_eq_true, beq_iff_eq, not_and]
    intro hname
    rw [h c hc hname]
    simp
  simp [add_route, hfind]

/-- An example router state over `ρ = Unit` holding the single component
`compUnitA`, which exposes no operations. -/
def routerStA : RouterSt Unit :=
  ⟨[compUnitA], [], [], false⟩

/-- Witness for C7: adding a route to the non-existent component `b` fails
and returns the state unchanged. -/
theorem add_route_bad_names_c7_witness :
    add_route routerStA "f" "b" "g" false = (routerStA, some ("b", "g")) :=
  add_route_bad_names_c7 routerStA "f" "b" "g" false
    (by intro c hc; rcases List.mem_singleton.mp hc with rfl; intro hn; rfl)

/-- C9: `is_trained` is true exactly when the component list is non-empty
and every component's `is_trained` flag is true; for an empty component
list it is false. -/
theorem is_trained_c9 {ρ : Type} (comps : List (Component ρ)) :
    (compound_is_trained comps = true
        ↔ comps ≠ [] ∧ ∀ c ∈ comps, c.is_trained = true)
    ∧ @compound_is_trained ρ [] = false := by
  constructor
  · simp [compound_is_trained, List.all_eq_true, List.isEmpty_iff]
  · rfl

/-- C10: every `_FnWrapper` aggregate installed by `_set_routes` for a
multiply-provided operation ignores all arguments passed at its call site:
each member operation is invoked with zero arguments, and the result equals
the result of calling the aggregate with no arguments at all. -/
theorem aggregate_ignores_args_c10 {ρ : Type} (ems : List String)
    (comps : List (Component ρ)) (n : String) (fs : List (List ρ → ρ))
    (_h : (n, RouteEntry.aggregate fs) ∈ _set_routes ems comps true)
    (args : List ρ) :
    fnWrapperCall fs args = fs.map (fun f => f [])
      ∧ fnWrapperCall fs args = fnWrapperCall fs [] :=
  ⟨rfl, rfl⟩

/-- The `op` operation of the first example component. -/
def opA : List Nat → Nat := fun _ => 1

/-- The `op` operation of the second example component. -/
def opB : List Nat → Nat := fun _ => 2

/-- Two components over `ρ = Nat` sharing the operation name `op`. -/
def compNatA : Component Nat :=
  ⟨"A", [("op", opA)], true, false, .ok (), .ok ()⟩

/-- Second component sharing the operation name `op`. -/
def compNatB : Component Nat :=
  ⟨"B", [("op", opB)], true, false, .ok (), .ok ()⟩

/-- Witness for C10 on the aggregate `op_all` over `compNatA`,`compNatB`,
called with the argument list `[5]`. -/
theorem aggregate_ignores_args_c10_witness :
    fnWrapperCall [opA, opB] [5] = List.map (fun f => f []) [opA, opB]
      ∧ fnWrapperCall [opA, opB] [5] = fnWrapperCall [opA, opB] [] :=
  aggregate_ignores_args_c10 ["op"] [compNatA, compNatB] "op_all"
    [opA, opB] (List.Mem.head _) [5]
